import Mathlib

/-!
Verification of the snakes-backend game-state engine.

A shallow embedding of the tile semantics, roll resolution, proof ledger
and read projections of the backend.  Database rows are modelled as plain
structures; per-game tables are modelled as lookup functions or lists.
Timestamps are modelled as millisecond integers (the stored ISO strings are
validated at creation and compared only through Date arithmetic).
-/

/-- Stored tile kind in the tile_tasks table.  The kind column is a free TEXT
column; every writer in the repository only ever stores one of these four
values (the games-creation seed accepts the full enum including boss). -/
inductive TileKind where
  | empty
  | task
  | jump
  | boss
deriving DecidableEq, Repr

/-- One row of the tile_tasks table for a fixed game and tile index:
columns kind, title, description, jump_to. -/
structure TileRowData where
  kind : TileKind
  title : Option String
  description : Option String
  jumpTo : Option Int
deriving DecidableEq, Repr

/-- A per-game tile_tasks table: the row stored at a tile index, if any
(the table has UNIQUE (game_id, tile_index), so at most one row per index). -/
def TileTable := Nat → Option TileRowData

/-- Result shape of getTileWithDefaults in the roll and proof routes:
fields kind, jumpTo, title. -/
structure TileKJT where
  kind : TileKind
  jumpTo : Option Int
  title : Option String
deriving DecidableEq, Repr

/-- getTileWithDefaults from src/routes/roll.ts: returns the stored row when
present, otherwise tile 0 is empty "Start", tile boardSize is empty "Finish",
and every other index defaults to task with no title. -/
def rollGetTileWithDefaults (raw : Option TileRowData) (tileIndex boardSize : Nat) : TileKJT :=
  match raw with
  | some t => { kind := t.kind, jumpTo := t.jumpTo, title := t.title }
  | none =>
    if tileIndex = 0 then { kind := .empty, jumpTo := none, title := some "Start" }
    else if tileIndex = boardSize then { kind := .empty, jumpTo := none, title := some "Finish" }
    else { kind := .task, jumpTo := none, title := none }

/-- getTileWithDefaults from src/routes/proof.ts (a second copy of the same
default rule, translated from its own source). -/
def proofGetTileWithDefaults (raw : Option TileRowData) (tileIndex boardSize : Nat) : TileKJT :=
  match raw with
  | some t => { kind := t.kind, jumpTo := t.jumpTo, title := t.title }
  | none =>
    if tileIndex = 0 then { kind := .empty, jumpTo := none, title := some "Start" }
    else if tileIndex = boardSize then { kind := .empty, jumpTo := none, title := some "Finish" }
    else { kind := .task, jumpTo := none, title := none }

/-- Result shape of getTileInfo in src/routes/state.ts: kind, title, jumpTo. -/
structure TileInfo where
  kind : TileKind
  title : Option String
  jumpTo : Option Int
deriving DecidableEq, Repr

/-- getTileInfo from src/routes/state.ts: same default rule, projecting
kind, title and jump_to. -/
def getTileInfo (raw : Option TileRowData) (tileIndex boardSize : Nat) : TileInfo :=
  match raw with
  | none =>
    if tileIndex = 0 then { kind := .empty, title := some "Start", jumpTo := none }
    else if tileIndex = boardSize then { kind := .empty, title := some "Finish", jumpTo := none }
    else { kind := .task, title := none, jumpTo := none }
  | some row => { kind := row.kind, title := row.title, jumpTo := row.jumpTo }

/-- Result shape of getTileFull in src/routes/overlay.ts:
kind, title, description, jumpTo. -/
structure TileFull where
  kind : TileKind
  title : Option String
  description : Option String
  jumpTo : Option Int
deriving DecidableEq, Repr

/-- getTileFull from src/routes/overlay.ts: same default rule, also carrying
the description column. -/
def getTileFull (raw : Option TileRowData) (tileIndex boardSize : Nat) : TileFull :=
  match raw with
  | none =>
    if tileIndex = 0 then { kind := .empty, title := some "Start", description := none, jumpTo := none }
    else if tileIndex = boardSize then { kind := .empty, title := some "Finish", description := none, jumpTo := none }
    else { kind := .task, title := none, description := none, jumpTo := none }
  | some row => { kind := row.kind, title := row.title, description := row.description, jumpTo := row.jumpTo }

/-- C1: for a game (boardSize is at least 10 by the creation schema) and a
tile index in range with no override row, all four default-tile functions
agree on kind and title, and they give empty "Start" at 0, empty "Finish" at
boardSize, and task with no title elsewhere. -/
theorem default_tile_rule_consistent (i b : Nat) (hb : 10 ≤ b) (hi : i ≤ b) :
    ((rollGetTileWithDefaults none i b).kind = (proofGetTileWithDefaults none i b).kind
      ∧ (proofGetTileWithDefaults none i b).kind = (getTileInfo none i b).kind
      ∧ (getTileInfo none i b).kind = (getTileFull none i b).kind)
    ∧ ((rollGetTileWithDefaults none i b).title = (proofGetTileWithDefaults none i b).title
      ∧ (proofGetTileWithDefaults none i b).title = (getTileInfo none i b).title
      ∧ (getTileInfo none i b).title = (getTileFull none i b).title)
    ∧ (i = 0 → (rollGetTileWithDefaults none i b).kind = TileKind.empty
        ∧ (rollGetTileWithDefaults none i b).title = some "Start")
    ∧ (i = b → (rollGetTileWithDefaults none i b).kind = TileKind.empty
        ∧ (rollGetTileWithDefaults none i b).title = some "Finish")
    ∧ (i ≠ 0 → i ≠ b → (rollGetTileWithDefaults none i b).kind = TileKind.task
        ∧ (rollGetTileWithDefaults none i b).title = none) := by
  have hb0 : b ≠ 0 := by omega
  unfold rollGetTileWithDefaults proofGetTileWithDefaults getTileInfo getTileFull
  by_cases h0 : i = 0
  · subst h0
    simp [hb0, Ne.symm hb0]
  · by_cases hB : i = b
    · subst hB
      simp [h0]
    · simp [h0, hB]

/-- Witness for the C1 theorem at boardSize 10, index 5. -/
theorem default_tile_rule_consistent_witness :
    (10 ≤ 10 ∧ 5 ≤ 10)
    ∧ (rollGetTileWithDefaults none 5 10).kind = TileKind.task :=
  ⟨⟨by decide, by decide⟩,
    ((default_tile_rule_consistent 5 10 (by decide) (by decide)).2.2.2.2
      (by decide) (by decide)).1⟩

/-! ## Roll resolution (src/routes/roll.ts, lines 188 to 212) -/

/-- Clamp of a jump target in the roll route:
Math.min(boardSize, Math.max(0, jumpTo)). -/
def clampJump (boardSize : Nat) (jt : Int) : Nat :=
  (min (boardSize : Int) (max 0 jt)).toNat

/-- Outcome of the movement part of the roll route: starting position, final
position, the optional single jump redirect, and whether proof is required. -/
structure RollOutcome where
  fromPos : Nat
  toPos : Nat
  jump : Option (Nat × Nat)
  needsProof : Bool
deriving DecidableEq, Repr

/-- The roll computation of src/routes/roll.ts (after all preconditions pass):
movement is clamped to the finish tile, the landing tile may redirect once
when it is a jump tile with a numeric target, and proof gating is computed
from the tile at the final destination with needsProof true when that tile's
kind is task or boss. -/
def resolveRollRoute (tiles : TileTable) (boardSize fromPos roll : Nat) : RollOutcome :=
  let to0 := min boardSize (fromPos + roll)
  let landing := rollGetTileWithDefaults (tiles to0) to0 boardSize
  let redirect : Option Nat :=
    if landing.kind = TileKind.jump then landing.jumpTo.map (clampJump boardSize) else none
  let to1 := redirect.getD to0
  let dest := rollGetTileWithDefaults (tiles to1) to1 boardSize
  { fromPos := fromPos
    toPos := to1
    jump := redirect.map (fun j => (to0, j))
    needsProof := dest.kind == TileKind.task || dest.kind == TileKind.boss }

/-! ## Team rows and the writers of position / gating fields -/

/-- The position and gating columns of a teams row:
position, awaiting_proof, pending_tile. -/
structure TeamGating where
  position : Nat
  awaitingProof : Bool
  pendingTile : Option Nat
deriving DecidableEq, Repr

/-- Team creation (src/routes/games.ts, INSERT INTO teams):
position 0, awaiting_proof 0, pending_tile NULL. -/
def newTeamGating : TeamGating :=
  { position := 0, awaitingProof := false, pendingTile := none }

/-- The roll route's UPDATE teams (src/routes/roll.ts lines 209 to 212):
position = toPos, awaiting_proof = needsProof, pending_tile = toPos when proof is
needed and NULL otherwise. -/
def rollTeamUpdate (out : RollOutcome) : TeamGating :=
  { position := out.toPos
    awaitingProof := out.needsProof
    pendingTile := if out.needsProof then some out.toPos else none }

/-- The proof route's UPDATE teams (src/routes/proof.ts lines 178 to 181):
awaiting_proof = 0, pending_tile = NULL, position untouched. -/
def clearGating (s : TeamGating) : TeamGating :=
  { position := s.position, awaitingProof := false, pendingTile := none }

/-- The reachable team-row states: a team row is created by team creation and
thereafter written only by the roll route (when the team is not gated) and by
the proof route's clearing update (when it is). -/
inductive TeamReachable : TeamGating → Prop where
  | create : TeamReachable newTeamGating
  | roll (s : TeamGating) (tiles : TileTable) (boardSize die : Nat) :
      TeamReachable s → s.awaitingProof = false →
      TeamReachable (rollTeamUpdate (resolveRollRoute tiles boardSize s.position die))
  | clear (s : TeamGating) :
      TeamReachable s → s.awaitingProof = true →
      TeamReachable (clearGating s)

/-- The team gating invariant of the spec: awaitingProof holds exactly when
pendingTile is present, and a present pendingTile equals the position. -/
def gatingInv (s : TeamGating) : Prop :=
  (s.awaitingProof = true ↔ s.pendingTile ≠ none)
    ∧ ∀ p, s.pendingTile = some p → p = s.position

/-- C2: every reachable team state satisfies the gating invariant; each of
the three writers of team rows preserves it. -/
theorem team_gating_invariant (s : TeamGating) (h : TeamReachable s) : gatingInv s := by
  induction h with
  | create =>
    refine ⟨by simp [newTeamGating], ?_⟩
    intro p hp
    simp [newTeamGating] at hp
  | roll s tiles boardSize die _ _ _ =>
    constructor
    · cases hnp : (resolveRollRoute tiles boardSize s.position die).needsProof
      · simp [rollTeamUpdate, hnp]
      · simp [rollTeamUpdate, hnp]
    · intro p hp
      cases hnp : (resolveRollRoute tiles boardSize s.position die).needsProof
      · simp [rollTeamUpdate, hnp] at hp
      · simp [rollTeamUpdate, hnp] at hp ⊢
        exact hp.symm
  | clear s _ _ _ =>
    refine ⟨by simp [clearGating], ?_⟩
    intro p hp
    simp [clearGating] at hp

/-- Witness for the C2 theorem: the state written by a roll from a fresh team
on an empty board of size 10 with die 3 is reachable and satisfies the
invariant. -/
theorem team_gating_invariant_witness :
    gatingInv (rollTeamUpdate (resolveRollRoute (fun _ => none) 10 newTeamGating.position 3)) :=
  team_gating_invariant _
    (TeamReachable.roll newTeamGating (fun _ => none) 10 3 TeamReachable.create rfl)

/-! ## C3: gating at the final destination -/

/-- A tile table holding a single stored row of kind boss at index 3, as
produced by the POST /games tile seeding. -/
def bossTileTable : TileTable := fun i =>
  if i = 3 then some { kind := TileKind.boss, title := none, description := none, jumpTo := none }
  else none

/-- C3 counterexample: with a stored boss row at tile 3 on a board of size 10,
a resolved roll from position 1 with die 2 persists awaiting_proof = true even
though the destination tile's kind is boss, not task — so gating is not
equivalent to the destination resolving to kind task. -/
theorem roll_gating_task_only_cex :
    ¬ (((resolveRollRoute bossTileTable 10 1 2).needsProof = true) ↔
        (rollGetTileWithDefaults (bossTileTable (resolveRollRoute bossTileTable 10 1 2).toPos)
            (resolveRollRoute bossTileTable 10 1 2).toPos 10).kind = TileKind.task) := by
  decide

/-- C3 amended: for every resolved roll, the persisted awaiting_proof flag is
true exactly when the tile at the final post-jump position resolves, under the
shared default rule, to kind task or to the stored legacy kind boss. -/
theorem roll_gating_iff_task_or_boss (tiles : TileTable) (boardSize fromPos roll : Nat) :
    (resolveRollRoute tiles boardSize fromPos roll).needsProof = true ↔
      ((rollGetTileWithDefaults (tiles (resolveRollRoute tiles boardSize fromPos roll).toPos)
          (resolveRollRoute tiles boardSize fromPos roll).toPos boardSize).kind = TileKind.task
        ∨ (rollGetTileWithDefaults (tiles (resolveRollRoute tiles boardSize fromPos roll).toPos)
            (resolveRollRoute tiles boardSize fromPos roll).toPos boardSize).kind = TileKind.boss) := by
  simp only [resolveRollRoute, Bool.or_eq_true, beq_iff_eq]

/-! ## C5: single-step jump resolution -/

/-- clampTile from src/model/gameModel.ts: clamp an index into [0, boardSize]
(the Number.isInteger guard of the source is always satisfied in this integer
model). -/
def clampTile (n : Int) (boardSize : Nat) : Nat :=
  if n < 0 then 0 else if n > (boardSize : Int) then boardSize else n.toNat

/-- A tile as consumed by the pure model helpers of src/model/gameModel.ts. -/
structure ModelTile where
  kind : TileKind
  jumpTo : Option Int
deriving DecidableEq, Repr

/-- resolveRoll from src/model/gameModel.ts: clamp the movement, then redirect
exactly once when the landing tile is a jump tile with a numeric target. -/
def resolveRollModel (boardSize : Nat) (fromPos roll : Int) (landing : ModelTile) :
    Nat × Option (Nat × Nat) :=
  let toM := clampTile (fromPos + roll) boardSize
  match landing.kind, landing.jumpTo with
  | TileKind.jump, some jt =>
    let j := clampTile jt boardSize
    (j, some (toM, j))
  | _, _ => (toM, none)

/-- C5: when the landing tile at min(boardSize, from + die) is a jump tile
with numeric target T, the final position is clamp(T, 0, boardSize) — the
target tile is never re-resolved for a second jump (the tile table is fully
arbitrary, so the tile stored at T may itself be a jump tile).  The same holds
for the pure model helper resolveRoll of src/model/gameModel.ts. -/
theorem single_step_jump (tiles : TileTable) (boardSize fromPos roll : Nat) (T : Int)
    (hk : (rollGetTileWithDefaults (tiles (min boardSize (fromPos + roll)))
        (min boardSize (fromPos + roll)) boardSize).kind = TileKind.jump)
    (hj : (rollGetTileWithDefaults (tiles (min boardSize (fromPos + roll)))
        (min boardSize (fromPos + roll)) boardSize).jumpTo = some T) :
    (resolveRollRoute tiles boardSize fromPos roll).toPos = clampJump boardSize T
    ∧ (resolveRollRoute tiles boardSize fromPos roll).jump
        = some (min boardSize (fromPos + roll), clampJump boardSize T)
    ∧ clampJump boardSize T = clampTile T boardSize
    ∧ (∀ landing : ModelTile, landing.kind = TileKind.jump → landing.jumpTo = some T →
        (resolveRollModel boardSize fromPos roll landing).1 = clampTile T boardSize) := by
  have hc : clampJump boardSize T = clampTile T boardSize := by
    unfold clampJump clampTile
    rw [min_def, max_def]
    split_ifs <;> omega
  refine ⟨?_, ?_, hc, ?_⟩
  · simp [resolveRollRoute, hk, hj]
  · simp [resolveRollRoute, hk, hj]
  · intro landing hlk hlj
    cases landing with
    | mk k j =>
      simp only at hlk hlj
      subst hlk
      subst hlj
      simp [resolveRollModel, hc.symm]

/-- A tile table with a jump tile at index 5 targeting 2, where the target
tile 2 is itself a jump tile targeting 9 — a jump chain. -/
def jumpChainTable : TileTable := fun i =>
  if i = 5 then some { kind := TileKind.jump, title := none, description := none, jumpTo := some 2 }
  else if i = 2 then some { kind := TileKind.jump, title := none, description := none, jumpTo := some 9 }
  else none

/-- Witness for the C5 theorem: rolling 2 from position 3 on the jump-chain
board lands on the jump tile 5 and finishes at its target 2, even though tile
2 is itself a jump tile. -/
theorem single_step_jump_witness :
    (rollGetTileWithDefaults (jumpChainTable (min 10 (3 + 2))) (min 10 (3 + 2)) 10).kind
        = TileKind.jump
    ∧ (resolveRollRoute jumpChainTable 10 3 2).toPos = clampJump 10 2 :=
  ⟨by decide, (single_step_jump jumpChainTable 10 3 2 2 (by decide) (by decide)).1⟩

/-! ## C4: the two input paths that accept a tile of kind boss -/

/-- Editor tile type of the board document schema in src/routes/board.ts. -/
inductive BoardTileType where
  | start
  | task
  | jump
  | finish
  | empty
  | boss
deriving DecidableEq, Repr

/-- mapBoardTileToDbKind from src/routes/board.ts: jump stays jump; task and
the legacy boss type become task unless the tile explicitly sets
requiresProof to false, in which case they become empty; everything else
(start, finish, empty, and an absent type) becomes empty. -/
def mapBoardTileToDbKind (bType : Option BoardTileType) (requiresProof : Option Bool) : TileKind :=
  let t := bType.getD BoardTileType.empty
  if t = BoardTileType.jump then TileKind.jump
  else if t = BoardTileType.task ∨ t = BoardTileType.boss then
    if requiresProof = some false then TileKind.empty else TileKind.task
  else TileKind.empty

/-- One entry of the optional tiles array of the POST /games body
(kind is constrained by the schema to empty, task, jump or boss). -/
structure SeedTile where
  tileIndex : Nat
  kind : TileKind
  title : Option String
  description : Option String
  jumpTo : Option Int
deriving DecidableEq, Repr

/-- The optional tile seeding of POST /games (src/routes/games.ts lines 459
to 475): a tile whose index is beyond the board is skipped; otherwise the
submitted kind, title, description and jumpTo are inserted verbatim into
tile_tasks. -/
def seedTileStored (boardSize : Nat) (t : SeedTile) : Option TileRowData :=
  if t.tileIndex ≤ boardSize then
    some { kind := t.kind, title := t.title, description := t.description, jumpTo := t.jumpTo }
  else none

/-- C4 counterexample: POST /games with boardSize 10 and a seeded tile of kind
boss at index 3 stores a tile_tasks row whose kind is boss, not task. -/
theorem boss_seed_not_normalized_cex :
    seedTileStored 10
        { tileIndex := 3, kind := TileKind.boss, title := none, description := none, jumpTo := none }
      = some { kind := TileKind.boss, title := none, description := none, jumpTo := none }
    ∧ TileKind.boss ≠ TileKind.task := by
  decide

/-- C4 amended: only the board-document save normalizes the legacy boss kind —
a boss editor tile is stored as task, or as empty when it explicitly sets
requiresProof to false, and never as boss — while the POST /games tile seeding
stores the submitted kind verbatim, so a seeded boss tile keeps kind boss. -/
theorem boss_normalization_amended :
    (∀ rp : Option Bool,
        mapBoardTileToDbKind (some BoardTileType.boss) rp ≠ TileKind.boss
        ∧ (rp ≠ some false →
            mapBoardTileToDbKind (some BoardTileType.boss) rp = TileKind.task)
        ∧ (rp = some false →
            mapBoardTileToDbKind (some BoardTileType.boss) rp = TileKind.empty))
    ∧ (∀ (b : Nat) (t : SeedTile), t.tileIndex ≤ b →
        seedTileStored b t
          = some { kind := t.kind, title := t.title, description := t.description,
                   jumpTo := t.jumpTo }) := by
  constructor
  · intro rp
    by_cases hrp : rp = some false
    · subst hrp
      exact ⟨by decide, fun h => absurd rfl h, fun _ => by decide⟩
    · refine ⟨?_, fun _ => ?_, fun h => absurd h hrp⟩
      · simp [mapBoardTileToDbKind, hrp]
      · simp [mapBoardTileToDbKind, hrp]
  · intro b t h
    simp [seedTileStored, h]

/-- Witness for the amended C4 theorem: a boss editor tile with no
requiresProof flag maps to task on the board path, and a seeded boss tile at
index 3 of a size-10 board is stored verbatim. -/
theorem boss_normalization_amended_witness :
    mapBoardTileToDbKind (some BoardTileType.boss) none = TileKind.task
    ∧ seedTileStored 10
        { tileIndex := 3, kind := TileKind.boss, title := none, description := none, jumpTo := none }
      = some { kind := TileKind.boss, title := none, description := none, jumpTo := none } :=
  ⟨(boss_normalization_amended.1 none).2.1 (by decide),
    boss_normalization_amended.2 10
      { tileIndex := 3, kind := TileKind.boss, title := none, description := none, jumpTo := none }
      (by decide)⟩

/-! ## Proof submission (src/routes/proof.ts) -/

/-- Game columns read around a proof submission.  The proof route's getGame
selects only id, clan_name, board_size and status; the schedule columns exist
in the games table and are carried here to state time-independence. -/
structure ProofGame where
  boardSize : Nat
  status : String
  startsAt : Option Int
  endsAt : Option Int
deriving DecidableEq, Repr

/-- The per-(game, team) state a proof submission touches: the team's gating
columns and the set of tile indices of this team's rows in the proofs table
(the table has UNIQUE (game_id, team_id, tile_index)). -/
structure ProofLedgerState where
  team : TeamGating
  proofs : List Nat
deriving DecidableEq, Repr

/-- Outcomes of the proof route: the thrown errors, the uniqueness violation
raised by the proofs insert, and acceptance. -/
inductive ProofOutcome where
  | gameNotFound
  | gameInactive
  | unauthorized
  | noProofExpected
  | notTaskTile
  | duplicateProof
  | accepted
deriving DecidableEq, Repr

/-- The POST /games/:gameId/proof handler of src/routes/proof.ts, as a state
transition on the team's ledger state.  Checks run in source order: game
found, game active, session valid, team gated with a pending tile, pending
tile re-resolves to kind task; then the ProofRecord insert (which aborts with
a uniqueness violation when a row for the same (game, team, tile) exists,
leaving every row unchanged) and the clearing team update.  The route never
reads the clock or the schedule columns, so the now argument and the game's
startsAt and endsAt fields are unused. -/
def proofHandler (game : Option ProofGame) (sessionValid : Bool) (tiles : TileTable)
    (s : Option ProofLedgerState) (now : Int) : ProofOutcome × Option ProofLedgerState :=
  match game with
  | none => (ProofOutcome.gameNotFound, s)
  | some g =>
    if g.status ≠ "active" then (ProofOutcome.gameInactive, s)
    else if ¬ sessionValid then (ProofOutcome.unauthorized, s)
    else match s with
    | none => (ProofOutcome.noProofExpected, none)
    | some st =>
      if st.team.awaitingProof = false then (ProofOutcome.noProofExpected, some st)
      else match st.team.pendingTile with
      | none => (ProofOutcome.noProofExpected, some st)
      | some tileIndex =>
        let tile := proofGetTileWithDefaults (tiles tileIndex) tileIndex g.boardSize
        if tile.kind ≠ TileKind.task then (ProofOutcome.notTaskTile, some st)
        else if tileIndex ∈ st.proofs then (ProofOutcome.duplicateProof, some st)
        else (ProofOutcome.accepted,
          some { team := clearGating st.team, proofs := tileIndex :: st.proofs })

/-- C7: a proof submission for a tile this team already has an accepted proof
for fails with the uniqueness conflict of the proofs table; more generally
every non-accepted outcome leaves the team's gating pair and the proof rows
unchanged (nothing is overwritten), and an accepted outcome appends exactly
one ProofRecord for the pending tile and clears awaiting_proof and
pending_tile in the same handler run. -/
theorem proof_duplicate_conflict (g : ProofGame) (tiles : TileTable)
    (st : ProofLedgerState) (tile : Nat) (now : Int)
    (hactive : g.status = "active")
    (hgate : st.team.awaitingProof = true)
    (hpend : st.team.pendingTile = some tile)
    (htask : (proofGetTileWithDefaults (tiles tile) tile g.boardSize).kind = TileKind.task)
    (hdup : tile ∈ st.proofs) :
    proofHandler (some g) true tiles (some st) now = (ProofOutcome.duplicateProof, some st)
    ∧ (∀ (st2 : ProofLedgerState) (r : ProofOutcome) (s2 : Option ProofLedgerState),
        proofHandler (some g) true tiles (some st2) now = (r, s2) →
        (r ≠ ProofOutcome.accepted → s2 = some st2)
        ∧ (r = ProofOutcome.accepted → ∃ t2, st2.team.pendingTile = some t2
            ∧ t2 ∉ st2.proofs
            ∧ s2 = some { team := clearGating st2.team, proofs := t2 :: st2.proofs })) := by
  constructor
  · simp [proofHandler, hactive, hgate, hpend, htask, hdup]
  · intro st2 r s2 h
    cases hAB : st2.team.awaitingProof with
    | false =>
      simp [proofHandler, hactive, hAB] at h
      obtain ⟨rfl, rfl⟩ := h
      exact ⟨fun _ => rfl, fun hr => absurd hr (by decide)⟩
    | true =>
      cases hP : st2.team.pendingTile with
      | none =>
        simp [proofHandler, hactive, hAB, hP] at h
        obtain ⟨rfl, rfl⟩ := h
        exact ⟨fun _ => rfl, fun hr => absurd hr (by decide)⟩
      | some t2 =>
        by_cases hK : (proofGetTileWithDefaults (tiles t2) t2 g.boardSize).kind = TileKind.task
        · by_cases hM : t2 ∈ st2.proofs
          · simp [proofHandler, hactive, hAB, hP, hK, hM] at h
            obtain ⟨rfl, rfl⟩ := h
            exact ⟨fun _ => rfl, fun hr => absurd hr (by decide)⟩
          · simp [proofHandler, hactive, hAB, hP, hK, hM] at h
            obtain ⟨rfl, rfl⟩ := h
            refine ⟨fun hr => absurd rfl hr, fun _ => ⟨t2, rfl, hM, rfl⟩⟩
        · simp [proofHandler, hactive, hAB, hP, hK] at h
          obtain ⟨rfl, rfl⟩ := h
          exact ⟨fun _ => rfl, fun hr => absurd hr (by decide)⟩

/-- Witness for the C7 theorem: a team gated on tile 3 of a size-10 board with
no overrides (tile 3 defaults to task) that already holds a proof for tile 3
gets the uniqueness conflict and keeps its state. -/
theorem proof_duplicate_conflict_witness :
    proofHandler
        (some { boardSize := 10, status := "active", startsAt := none, endsAt := none })
        true (fun _ => none)
        (some { team := { position := 3, awaitingProof := true, pendingTile := some 3 },
                proofs := [3] }) 0
      = (ProofOutcome.duplicateProof,
          some { team := { position := 3, awaitingProof := true, pendingTile := some 3 },
                 proofs := [3] }) :=
  (proof_duplicate_conflict
    { boardSize := 10, status := "active", startsAt := none, endsAt := none }
    (fun _ => none)
    { team := { position := 3, awaitingProof := true, pendingTile := some 3 }, proofs := [3] }
    3 0 rfl rfl rfl (by decide) (by decide)).1

/-- C9: the proof route never re-checks the game's time window — for an
active-status game whose end time has already passed, a valid gated proof
submission still succeeds with the same effects, and the handler result does
not depend on the clock at all. -/
theorem proof_ignores_time_window (g : ProofGame) (tiles : TileTable)
    (st : ProofLedgerState) (tile : Nat) (now e : Int)
    (hactive : g.status = "active")
    (hend : g.endsAt = some e) (hpassed : e ≤ now)
    (hgate : st.team.awaitingProof = true)
    (hpend : st.team.pendingTile = some tile)
    (htask : (proofGetTileWithDefaults (tiles tile) tile g.boardSize).kind = TileKind.task)
    (hnew : tile ∉ st.proofs) :
    proofHandler (some g) true tiles (some st) now
      = (ProofOutcome.accepted,
          some { team := clearGating st.team, proofs := tile :: st.proofs })
    ∧ ∀ now2 : Int, proofHandler (some g) true tiles (some st) now2
        = proofHandler (some g) true tiles (some st) now := by
  constructor
  · simp [proofHandler, hactive, hgate, hpend, htask, hnew]
  · intro now2
    rfl

/-- Witness for the C9 theorem: game ended at time 0, submission at time 5
still accepted. -/
theorem proof_ignores_time_window_witness :
    proofHandler
        (some { boardSize := 10, status := "active", startsAt := none, endsAt := some 0 })
        true (fun _ => none)
        (some { team := { position := 3, awaitingProof := true, pendingTile := some 3 },
                proofs := [] }) 5
      = (ProofOutcome.accepted,
          some { team := clearGating { position := 3, awaitingProof := true, pendingTile := some 3 },
                 proofs := [3] }) :=
  (proof_ignores_time_window
    { boardSize := 10, status := "active", startsAt := none, endsAt := some 0 }
    (fun _ => none)
    { team := { position := 3, awaitingProof := true, pendingTile := some 3 }, proofs := [] }
    3 5 0 rfl rfl (by decide) rfl rfl (by decide) (by decide)).1

/-! ## The roll route handler (src/routes/roll.ts) -/

/-- Game columns read by the roll route's getGame:
board_size, status, starts_at, ends_at (id and clan_name carry no logic). -/
structure RollGame where
  boardSize : Nat
  status : String
  startsAt : Option Int
  endsAt : Option Int
deriving DecidableEq, Repr

/-- The response fields of the roll route that carry control flow:
ok, rollAllowed and the reason code. -/
structure RollResponse where
  ok : Bool
  rollAllowed : Bool
  reason : String
deriving DecidableEq, Repr

/-- msUntil from src/routes/roll.ts: milliseconds from now to the stored
timestamp (the stored timestamps are created by parseIsoOrThrow, so the
non-finite branch of the source cannot occur). -/
def msUntil (iso now : Int) : Int := iso - now

/-- The not-started guard of the roll route: a start time exists and
msUntil(startsAt) is strictly positive. -/
def notStartedGuard (startsAt : Option Int) (now : Int) : Bool :=
  match startsAt with
  | some s => decide (0 < msUntil s now)
  | none => false

/-- The ended guard of the roll route: an end time exists and msUntil(endsAt)
is not positive. -/
def endedGuard (endsAt : Option Int) (now : Int) : Bool :=
  match endsAt with
  | some e => decide (msUntil e now ≤ 0)
  | none => false

/-- The POST /games/:gameId/roll handler of src/routes/roll.ts, with the die
value passed in for the call to crypto.randomInt(1, 7).  Checks run in source
order: game found, game active, session valid, team found, the hard gate on
awaiting_proof, the not-started window, the ended window; then the roll is
resolved and the team row is updated.  Returns the response and the team row
after the request. -/
def rollHandler (game : Option RollGame) (sessionValid : Bool) (team : Option TeamGating)
    (tiles : TileTable) (now : Int) (die : Nat) : RollResponse × Option TeamGating :=
  match game with
  | none => ({ ok := false, rollAllowed := false, reason := "not_found" }, team)
  | some g =>
    if g.status ≠ "active" then
      ({ ok := false, rollAllowed := false, reason := "inactive" }, team)
    else if ¬ sessionValid then
      ({ ok := false, rollAllowed := false, reason := "unauthorized" }, team)
    else match team with
    | none => ({ ok := false, rollAllowed := false, reason := "team_missing" }, none)
    | some t =>
      if t.awaitingProof then
        ({ ok := true, rollAllowed := false, reason := "awaiting_proof" }, some t)
      else if notStartedGuard g.startsAt now then
        ({ ok := true, rollAllowed := false, reason := "not_started" }, some t)
      else if endedGuard g.endsAt now then
        ({ ok := true, rollAllowed := false, reason := "ended" }, some t)
      else
        let out := resolveRollRoute tiles g.boardSize t.position die
        ({ ok := true, rollAllowed := true, reason := "rolled" }, some (rollTeamUpdate out))

/-- C8: a roll request by a gated team (game found and active, session valid)
is answered with the structured non-error result ok true, rollAllowed false,
reason "awaiting_proof", and the team row — position, awaiting_proof and
pending_tile — is left exactly as it was. -/
theorem roll_refused_while_awaiting_proof (g : RollGame) (t : TeamGating)
    (tiles : TileTable) (now : Int) (die : Nat)
    (hactive : g.status = "active")
    (hgate : t.awaitingProof = true) :
    rollHandler (some g) true (some t) tiles now die
      = ({ ok := true, rollAllowed := false, reason := "awaiting_proof" }, some t) := by
  simp [rollHandler, hactive, hgate]

/-- Witness for the C8 theorem: a gated team at position 7 keeps its row and
gets the awaiting_proof refusal. -/
theorem roll_refused_while_awaiting_proof_witness :
    rollHandler
        (some { boardSize := 10, status := "active", startsAt := none, endsAt := none })
        true (some { position := 7, awaitingProof := true, pendingTile := some 7 })
        (fun _ => none) 0 4
      = ({ ok := true, rollAllowed := false, reason := "awaiting_proof" },
          some { position := 7, awaitingProof := true, pendingTile := some 7 }) :=
  roll_refused_while_awaiting_proof
    { boardSize := 10, status := "active", startsAt := none, endsAt := none }
    { position := 7, awaitingProof := true, pendingTile := some 7 }
    (fun _ => none) 0 4 rfl rfl

/-! ## The overlay view (src/routes/overlay.ts) -/

/-- Game columns read by the overlay route's getGame: board_size, status,
starts_at, ends_at and turn_team_index (board_url carries no logic). -/
structure OverlayGame where
  boardSize : Nat
  status : String
  startsAt : Option Int
  endsAt : Option Int
  turnTeamIndex : Nat
deriving DecidableEq, Repr

/-- Team columns read by the overlay route's getTeamByRsn. -/
structure OverlayTeam where
  index : Nat
  name : String
  position : Nat
  awaitingProof : Bool
  pendingTile : Option Nat
deriving DecidableEq, Repr

/-- The prestart test of phaseFrom: a start time exists and now is before it. -/
def prestartGuard (startsAt : Option Int) (nowMs : Int) : Bool :=
  match startsAt with
  | some s => decide (nowMs < s)
  | none => false

/-- The past-end test of phaseFrom: an end time exists and now is at or past it. -/
def pastEndGuard (endsAt : Option Int) (nowMs : Int) : Bool :=
  match endsAt with
  | some e => decide (e ≤ nowMs)
  | none => false

/-- phaseFrom from src/routes/overlay.ts: no game or a finished status is
"ended"; otherwise before the start time is "prestart", at or past the end
time is "ended", and everything else is "running". -/
def phaseFrom (game : Option OverlayGame) (nowMs : Int) : String :=
  match game with
  | none => "ended"
  | some g =>
    if g.status.toLower = "finished" then "ended"
    else if prestartGuard g.startsAt nowMs then "prestart"
    else if pastEndGuard g.endsAt nowMs then "ended"
    else "running"

/-- Result of getOverlayRevision in src/routes/overlay.ts:
COALESCE(MAX(seq), 0) over the game's events, and the board revision's
updated_at when a game_boards row exists. -/
structure OverlayRevision where
  maxSeq : Nat
  updatedAt : Option Nat
deriving DecidableEq, Repr

/-- getOverlayRevision from src/routes/overlay.ts, over the list of event
seq values of the game and the optional board updated_at timestamp. -/
def getOverlayRevision (events : List Nat) (boardUpdatedAt : Option Nat) : OverlayRevision :=
  { maxSeq := events.foldr max 0, updatedAt := boardUpdatedAt }

/-- The tile object of the overlay response (the imageUrl / imageCacheKey
fields are copied from the board JSON and carry no engine logic). -/
structure OverlayTile where
  tileIndex : Nat
  kind : TileKind
  title : String
  description : String
deriving DecidableEq, Repr

/-- The overlay response body: revision, phase, the focused team (name and
position), the active tile, and the awaitingProof / canRoll flags. -/
structure OverlayResponse where
  revision : Nat
  phase : String
  team : Option (String × Nat)
  tile : OverlayTile
  awaitingProof : Bool
  canRoll : Bool
deriving DecidableEq, Repr

/-- The GET /games/:id/overlay handler of src/routes/overlay.ts.  A missing
game short-circuits to a fixed placeholder body; otherwise the revision is
MAX(seq) over the game's events, the phase comes from phaseFrom, the active
tile index is the team's pendingTile (falling back to its position) or 0 for
no team, and canRoll requires a team, no pending proof, a running phase, an
active status and the team's index matching the game's turn pointer.  The
conditional 304 branch returns no body and is outside this model. -/
def overlayHandler (game : Option OverlayGame) (events : List Nat)
    (boardUpdatedAt : Option Nat) (team : Option OverlayTeam) (tiles : TileTable)
    (nowMs : Int) : OverlayResponse :=
  match game with
  | none =>
    { revision := 0, phase := "ended", team := none,
      tile := { tileIndex := 0, kind := TileKind.empty, title := "Start", description := "" },
      awaitingProof := false, canRoll := false }
  | some g =>
    let rev := getOverlayRevision events boardUpdatedAt
    let phase := phaseFrom (some g) nowMs
    let activeIndex := match team with
      | some t => t.pendingTile.getD t.position
      | none => 0
    let tf := getTileFull (tiles activeIndex) activeIndex g.boardSize
    let awaitingProof := match team with
      | some t => t.awaitingProof
      | none => false
    let canRoll := match team with
      | some t =>
        !awaitingProof && phase == "running" && g.status.toLower == "active"
          && t.index == g.turnTeamIndex
      | none => false
    { revision := rev.maxSeq
      phase := phase
      team := team.map (fun t => (t.name, t.position))
      tile := { tileIndex := activeIndex, kind := tf.kind,
                title := tf.title.getD "", description := tf.description.getD "" }
      awaitingProof := awaitingProof
      canRoll := canRoll }

/-- C10: for a gameId with no matching game, the overlay never fails: it
returns the fixed placeholder — revision 0, phase "ended", team null, tile
of index 0 with kind empty and title "Start", awaitingProof false and
canRoll false — whatever the rest of the stored state and the clock say. -/
theorem overlay_missing_game_placeholder (events : List Nat) (boardUpdatedAt : Option Nat)
    (team : Option OverlayTeam) (tiles : TileTable) (nowMs : Int) :
    overlayHandler none events boardUpdatedAt team tiles nowMs
      = { revision := 0, phase := "ended", team := none,
          tile := { tileIndex := 0, kind := TileKind.empty, title := "Start", description := "" },
          awaitingProof := false, canRoll := false } := rfl

/-! ## C6: the overlay revision token -/

/-- Modelled from the spec (for comparison with the source): the revision as
the spec words it — the larger of the count of recorded domain events and the
board revision's update timestamp. -/
def specOverlayRevision (events : List Nat) (boardUpdatedAt : Option Nat) : Nat :=
  max events.length (boardUpdatedAt.getD 0)

/-- A plain active game used to instantiate overlay facts. -/
def overlayPlainGame : OverlayGame :=
  { boardSize := 10, status := "active", startsAt := none, endsAt := none, turnTeamIndex := 0 }

/-- C6 counterexample: for a game with no recorded events whose board revision
was updated at timestamp 1000, the overlay returns revision 0 — MAX(seq) over
the events — while the larger of the event count and the board timestamp is
1000, so the returned revision is not that larger value. -/
theorem overlay_revision_cex :
    (overlayHandler (some overlayPlainGame) [] (some 1000) none (fun _ => none) 0).revision = 0
    ∧ specOverlayRevision [] (some 1000) = 1000
    ∧ (overlayHandler (some overlayPlainGame) [] (some 1000) none (fun _ => none) 0).revision
        ≠ specOverlayRevision [] (some 1000) := by
  refine ⟨rfl, rfl, ?_⟩
  decide

/-- Every member of a list is bounded by its fold under max. -/
theorem mem_le_foldr_max (x : Nat) (l : List Nat) (hx : x ∈ l) : x ≤ l.foldr max 0 := by
  induction l with
  | nil => cases hx
  | cons a l ih =>
    simp only [List.foldr_cons]
    rcases List.mem_cons.mp hx with rfl | h2
    · exact le_max_left _ _
    · exact le_trans (ih h2) (le_max_right _ _)

/-- The fold under max of a list is bounded by any bound of its members. -/
theorem foldr_max_le (l : List Nat) (n : Nat) (h : ∀ x ∈ l, x ≤ n) : l.foldr max 0 ≤ n := by
  induction l with
  | nil => simp
  | cons a l ih =>
    simp only [List.foldr_cons]
    exact max_le (h a (List.mem_cons_self a l)) (ih fun x hx => h x (List.mem_cons_of_mem a hx))

/-- C6 amended: the overlay revision equals MAX(seq) over the game's recorded
events (0 when there are none); it does not incorporate the board revision's
update timestamp; it is monotonically non-decreasing as events accrue; and two
reads of the same stored state return the same value. -/
theorem overlay_revision_props (g : OverlayGame) (events events2 : List Nat)
    (b1 b2 : Option Nat) (team : Option OverlayTeam) (tiles : TileTable) (nowMs : Int)
    (hsub : ∀ x ∈ events, x ∈ events2) :
    (overlayHandler (some g) events b1 team tiles nowMs).revision = events.foldr max 0
    ∧ (overlayHandler (some g) events b1 team tiles nowMs).revision
        = (overlayHandler (some g) events b2 team tiles nowMs).revision
    ∧ (overlayHandler (some g) events b1 team tiles nowMs).revision
        ≤ (overlayHandler (some g) events2 b1 team tiles nowMs).revision
    ∧ (overlayHandler (some g) events b1 team tiles nowMs)
        = (overlayHandler (some g) events b1 team tiles nowMs) := by
  refine ⟨rfl, rfl, ?_, rfl⟩
  show events.foldr max 0 ≤ events2.foldr max 0
  exact foldr_max_le _ _ (fun x hx => mem_le_foldr_max x _ (hsub x hx))

/-- Witness for the amended C6 theorem: growing the event log from seqs [1]
to [1, 2] does not decrease the revision. -/
theorem overlay_revision_props_witness :
    (overlayHandler (some overlayPlainGame) [1] none none (fun _ => none) 0).revision
      ≤ (overlayHandler (some overlayPlainGame) [1, 2] none none (fun _ => none) 0).revision :=
  (overlay_revision_props overlayPlainGame [1] [1, 2] none none none (fun _ => none) 0
    (by decide)).2.2.1
